import Mathlib

/-!
Verification of the streaming sitemap generator in `sitemap_gen_script.py`.

The embedding follows the source function by function:

* `get_element_iterators` (lines 174-195) resolves the selector expressions
  against the parsed document and concatenates the per-selector match
  sequences, tagging each element with its expression.
* `make_sitemap_tree` (lines 198-220) pulls one bounded batch off the merged
  sequence and builds one sitemap document from it.
* the `while True` loop of `handle` (lines 156-165) alternates batch
  building and writing until a built document is empty.
* `write_sitemap_tree` (lines 223-247) names and serializes each document,
  optionally copying the already-serialized bytes into a gzip sibling.
* the index file is written iff more than one sitemap file was (lines 164-169,
  250-263).

The external XPath engine (lxml) is abstracted as a `Source`: a map from a
selector expression to either a syntax error or the list of matched elements
in document order, which is exactly the interface the script consumes.
-/

namespace SitemapGen

/-- An XML element as the pipeline sees it: only its `.text` matters.
`none` models an absent text node (lxml returns `None`). -/
structure Elem where
  text : Option String
deriving Repr, DecidableEq

/-- Python truthiness of `i_elem.text` (line 214 of the script): `None` and
the empty string are falsy; every other string, including whitespace-only
ones, is truthy. -/
def textTruthy : Option String → Bool
  | none => false
  | some s => !(s == "")

/-- One `url` entry of a sitemap document: the `loc` text and the
`priority` text (lines 215-217). -/
structure AddressEntry where
  loc : String
  priority : String
deriving Repr, DecidableEq

/-- The per-selector counter `report["tags handled"]`, modelled as an
association list in key order. -/
abbrev Tally := List (String × Nat)

/-- `report["tags handled"] = dict.fromkeys(xpath_expressions, 0)`
(line 186). -/
def Tally.init (keys : List String) : Tally := keys.map (fun k => (k, 0))

/-- `report["tags handled"][i_tag] += 1` (line 218): bump the first entry
with the given key. -/
def Tally.incr : Tally → String → Tally
  | [], _ => []
  | (k, v) :: rest, key => if k == key then (k, v + 1) :: rest else (k, v) :: Tally.incr rest key

/-- The body of the `for` loop of `make_sitemap_tree` (lines 213-218) applied
to one already-pulled batch: an item with truthy text becomes a `url` entry
and bumps its selector tally; any other item is skipped silently. -/
def buildEntries : List (Elem × String) → String → Tally → List AddressEntry × Tally
  | [], _, tally => ([], tally)
  | (e, tag) :: rest, pr, tally =>
    if textTruthy e.text then
      let r := buildEntries rest pr (Tally.incr tally tag)
      (⟨e.text.getD "", pr⟩ :: r.1, r.2)
    else
      buildEntries rest pr tally

/-- `make_sitemap_tree` (lines 198-220): pull `islice(iterators, entries_num)`
off the shared merged iterator (= `take`), build the document and the updated
tally from that batch, and leave the iterator advanced past every pulled item
(= `drop`) whether or not the item was kept. -/
def make_sitemap_tree (items : List (Elem × String)) (entries_num : Nat) (pr : String)
    (tally : Tally) : (List AddressEntry × Tally) × List (Elem × String) :=
  (buildEntries (items.take entries_num) pr tally, items.drop entries_num)

/-- The output file name of the `n`-th write (line 236):
`f"[filename_prefix][file_number or empty].xml"`, where the counter 0 renders
as the empty string. -/
def fileName (pfx : String) (n : Nat) : String :=
  pfx ++ (if n = 0 then "" else toString n) ++ ".xml"

/-- The `while True` loop of `handle` (lines 156-165), fuel-indexed so that it
is structurally recursive: build a document from the next batch, stop when it
is empty, otherwise record the written file (name from the running counter,
line 236) and continue on the advanced iterator. Returns the written files
in write order together with the final tally. `sitemapLoop` runs it with
fuel `items.length + 1`, which is always sufficient because every non-final
iteration consumes at least one item. -/
def sitemapLoopF : Nat → Nat → String → String → List (Elem × String) → Tally → Nat →
    List (String × List AddressEntry) × Tally
  | 0, _, _, _, _, tally, _ => ([], tally)
  | fuel + 1, ents, pr, pfx, items, tally, k =>
    let m := make_sitemap_tree items ents pr tally
    if m.1.1 = [] then
      ([], m.1.2)
    else
      let r := sitemapLoopF fuel ents pr pfx m.2 m.1.2 (k + 1)
      ((fileName pfx k, m.1.1) :: r.1, r.2)

/-- The driving loop of `handle`, started on the full merged sequence with
file counter 0. -/
def sitemapLoop (ents : Nat) (pr pfx : String) (items : List (Elem × String))
    (tally : Tally) : List (String × List AddressEntry) × Tally :=
  sitemapLoopF (items.length + 1) ents pr pfx items tally 0

/-- The external XPath engine applied to the parsed source document:
`parsed_xml_tree.iterfind(x_path)` either raises `SyntaxError` at the call
site (modelled `.error ()`) or yields the matched elements in document
order. -/
structure Source where
  query : String → Except Unit (List Elem)

/-- The iterator-building loop of `get_element_iterators` (lines 187-193):
`zip_longest(element.iterfind(x_path), [], fillvalue=x_path)` pairs every
match with its expression, and `chain(*iterators)` concatenates the
per-selector sequences in selector order; the first expression whose
`iterfind` raises `SyntaxError` aborts the run (lines 191-193), modelled by
returning that expression as the error. -/
def resolveSelectors (src : Source) : List String → Except String (List (Elem × String))
  | [] => .ok []
  | x :: xs =>
    match src.query x with
    | .error _ => .error x
    | .ok es =>
      match resolveSelectors src xs with
      | .error e => .error e
      | .ok rest => .ok (es.map (fun e => (e, x)) ++ rest)

/-- `get_element_iterators` (lines 174-195): initialize the per-selector
tally to zero for every expression and build the merged extraction
sequence; a bad selector aborts instead. -/
def get_element_iterators (src : Source) (xpaths : List String) :
    Except String (List (Elem × String) × Tally) :=
  match resolveSelectors src xpaths with
  | .error e => .error e
  | .ok items => .ok (items, Tally.init xpaths)

/-- The generation parameters `handle` unpacks from the CLI layer
(lines 125-131), with the priority already rendered to its decimal string
(`str(url_priority)`, line 211). -/
structure Config where
  selectors : List String
  entries_number : Nat
  urls_priority : String
  pfx : String
  output_dir : String
  need_zip : Bool
deriving Repr, DecidableEq

/-- What a successful run leaves behind: the sitemap files in write order
(file name paired with the document written into it), the final
per-selector tally, and `some` of the index `loc` texts exactly when
`sitemap-index.xml` was written (lines 164-169). -/
structure RunResult where
  files : List (String × List AddressEntry)
  tally : Tally
  indexLocs : Option (List String)
deriving Repr, DecidableEq

/-- `handle` (lines 116-171), restricted to the core pipeline: resolve the
selectors (aborting on the first bad one), run the write loop, and write
`sitemap-index.xml` iff more than one sitemap file was written; every index
entry is the absolute path of one written file (line 165), in write order. -/
def handle (src : Source) (cfg : Config) : Except String RunResult :=
  match get_element_iterators src cfg.selectors with
  | .error e => .error e
  | .ok (items, tally0) =>
    let r := sitemapLoop cfg.entries_number cfg.urls_priority cfg.pfx items tally0
    .ok
      { files := r.1
        tally := r.2
        indexLocs :=
          if 1 < r.1.length then
            some (r.1.map (fun f => cfg.output_dir ++ "/" ++ f.1))
          else
            none }

/-- Serialization of one `url` element, standing in for the pretty-printed
output of `tree.write` (line 240). The exact rendering is irrelevant to the
claims; what matters is that it is a single fixed function of the document. -/
def serialize_url (e : AddressEntry) : String :=
  "  <url>\n    <loc>" ++ e.loc ++ "</loc>\n    <priority>" ++ e.priority
    ++ "</priority>\n  </url>\n"

/-- Serialization of a whole sitemap document (`urlset` root in the sitemap
namespace, line 209, written with an XML declaration, line 240). -/
def serialize_sitemap (doc : List AddressEntry) : String :=
  "<?xml version=\"1.0\" encoding=\"UTF-8\"?>\n<urlset xmlns=\"http://www.sitemaps.org/schemas/sitemap/0.9\">\n"
    ++ String.join (doc.map serialize_url) ++ "</urlset>\n"

/-- Serialization of one `sitemap`/`loc` pair of the index document
(lines 164-165). -/
def serialize_index_entry (loc : String) : String :=
  "  <sitemap>\n    <loc>" ++ loc ++ "</loc>\n  </sitemap>\n"

/-- Serialization of the index document (`sitemapindex` root in the sitemap
namespace, line 149, written with an XML declaration, line 260). -/
def serialize_index (locs : List String) : String :=
  "<?xml version=\"1.0\" encoding=\"UTF-8\"?>\n<sitemapindex xmlns=\"http://www.sitemaps.org/schemas/sitemap/0.9\">\n"
    ++ String.join (locs.map serialize_index_entry) ++ "</sitemapindex>\n"

/-- A file on disk: either a plain XML file with its bytes, or a gzip
container with the byte payload it decompresses to. -/
inductive FsFile where
  | xml (path : String) (bytes : String)
  | gz (path : String) (payload : String)
deriving Repr, DecidableEq

/-- The disk effect of `write_sitemap_tree` (lines 239-245) for one file:
the document is serialized once into the `.xml` file, and when archiving is
requested the very same bytes are copied (`xml_output.seek(0);
copyfileobj(...)`, lines 244-245) into the gzip sibling named by
`with_suffix(".xml.gz")`, i.e. the `.xml` path with `.gz` appended. -/
def write_fs (zipped : Bool) (f : String × List AddressEntry) : List FsFile :=
  let bytes := serialize_sitemap f.2
  FsFile.xml f.1 bytes :: (if zipped then [FsFile.gz (f.1 ++ ".gz") bytes] else [])

/-- All sitemap files a run puts on disk (the index file aside). -/
def runFs (zipped : Bool) (files : List (String × List AddressEntry)) : List FsFile :=
  files.flatMap (write_fs zipped)

/-- Fuel-indexed check that no pulled batch of `n` items consists entirely
of falsy-text items: chunk the sequence the way the loop pulls it and
require a truthy item in every chunk. Fuel `items.length` is always
sufficient (see `noAllFiltered`). -/
def noAllFilteredF : Nat → Nat → List (Elem × String) → Bool
  | _, _, [] => true
  | 0, _, _ :: _ => false
  | fp + 1, n, x :: xs =>
    ((x :: xs).take n).any (fun p => textTruthy p.1.text)
      && noAllFilteredF fp n ((x :: xs).drop n)

/-- No batch of `n` consecutive pulled items is entirely filtered out. -/
def noAllFiltered (n : Nat) (items : List (Elem × String)) : Bool :=
  noAllFilteredF items.length n items

/-- The `loc` texts of one written document, in document order. -/
def docLocs (doc : List AddressEntry) : List String := doc.map AddressEntry.loc

/-- The `loc` texts of all written files, concatenated in file-index order. -/
def outLocs (files : List (String × List AddressEntry)) : List String :=
  (files.map (fun f => docLocs f.2)).flatten

/-- The texts of the truthy-text items of a merged sequence, in sequence
order: the addresses the run is expected to emit. -/
def truthyTexts (items : List (Elem × String)) : List String :=
  (items.filter (fun p => textTruthy p.1.text)).map (fun p => p.1.text.getD "")

/-- Every written document except possibly the last one holds exactly
`ents` entries. -/
def AllFullButLast (l : List (String × List AddressEntry)) (ents : Nat) : Prop :=
  ∀ (i : Nat) (h : i + 1 < l.length), (l.get ⟨i, Nat.lt_of_succ_lt h⟩).2.length = ents

/-- An element whose text node is present. -/
def elemOf (s : String) : Elem := ⟨some s⟩

/-- The source of the round-trip scenario of the specification: the selector
`//offer/url` matches three nodes with texts `https://a/1`, the empty
string, and `https://a/2`, in that order. -/
def srcRT : Source :=
  ⟨fun x =>
    if x = "//offer/url" then
      .ok [elemOf "https://a/1", elemOf "", elemOf "https://a/2"]
    else
      .error ()⟩

/-- The configuration of the round-trip scenario: one selector, at most two
entries per file. -/
def cfgRT : Config :=
  { selectors := ["//offer/url"], entries_number := 2, urls_priority := "0.3",
    pfx := "sitemap", output_dir := "/out", need_zip := false }

/-- What the script actually produces on the round-trip scenario. -/
def rRT : RunResult :=
  { files := [("sitemap.xml", [⟨"https://a/1", "0.3"⟩]),
              ("sitemap1.xml", [⟨"https://a/2", "0.3"⟩])],
    tally := [("//offer/url", 2)],
    indexLocs := some ["/out/sitemap.xml", "/out/sitemap1.xml"] }

/-- A multi-file witness source: five matching nodes, all with non-empty
text. -/
def srcM : Source :=
  ⟨fun x =>
    if x = "//offer/url" then
      .ok [elemOf "https://m/1", elemOf "https://m/2", elemOf "https://m/3",
           elemOf "https://m/4", elemOf "https://m/5"]
    else
      .error ()⟩

/-- The multi-file witness configuration: two entries per file, gzip
requested. -/
def cfgM : Config :=
  { selectors := ["//offer/url"], entries_number := 2, urls_priority := "0.5",
    pfx := "sitemap", output_dir := "/srv", need_zip := true }

/-- The merged extraction sequence of the multi-file witness scenario. -/
def mItems : List (Elem × String) :=
  [(elemOf "https://m/1", "//offer/url"), (elemOf "https://m/2", "//offer/url"),
   (elemOf "https://m/3", "//offer/url"), (elemOf "https://m/4", "//offer/url"),
   (elemOf "https://m/5", "//offer/url")]

/-- What the script produces on the multi-file witness scenario. -/
def rM : RunResult :=
  { files := [("sitemap.xml", [⟨"https://m/1", "0.5"⟩, ⟨"https://m/2", "0.5"⟩]),
              ("sitemap1.xml", [⟨"https://m/3", "0.5"⟩, ⟨"https://m/4", "0.5"⟩]),
              ("sitemap2.xml", [⟨"https://m/5", "0.5"⟩])],
    tally := [("//offer/url", 5)],
    indexLocs := some ["/srv/sitemap.xml", "/srv/sitemap1.xml", "/srv/sitemap2.xml"] }

/-- A source whose first pulled batch is entirely empty-text although a
matching non-empty-text node follows it. -/
def srcES : Source :=
  ⟨fun x =>
    if x = "//offer/url" then
      .ok [elemOf "", elemOf "https://x/1"]
    else
      .error ()⟩

/-- One entry per file, so the first pulled batch holds only the empty-text
node. -/
def cfgES : Config :=
  { selectors := ["//offer/url"], entries_number := 1, urls_priority := "0.3",
    pfx := "sitemap", output_dir := "/out", need_zip := false }

/-- The merged extraction sequence of the early-stop scenario. -/
def esItems : List (Elem × String) :=
  [(elemOf "", "//offer/url"), (elemOf "https://x/1", "//offer/url")]

/-- A source on which the expression `[` raises a selector syntax error and
every other expression matches nothing. -/
def srcBad : Source :=
  ⟨fun x => if x = "[" then .error () else .ok []⟩

/-- A configuration holding one valid and one invalid selector expression. -/
def cfgBad : Config :=
  { selectors := ["//offer/url", "["], entries_number := 10, urls_priority := "0.3",
    pfx := "sitemap", output_dir := "/out", need_zip := false }

/-! ## General lemmas about the embedded operations -/

theorem loopF_zero (ents : Nat) (pr pfx : String) (items : List (Elem × String))
    (tally : Tally) (k : Nat) :
    sitemapLoopF 0 ents pr pfx items tally k = ([], tally) := rfl

theorem loopF_succ (fuel ents : Nat) (pr pfx : String) (items : List (Elem × String))
    (tally : Tally) (k : Nat) :
    sitemapLoopF (fuel + 1) ents pr pfx items tally k =
      if (buildEntries (items.take ents) pr tally).1 = [] then
        ([], (buildEntries (items.take ents) pr tally).2)
      else
        ((fileName pfx k, (buildEntries (items.take ents) pr tally).1) ::
            (sitemapLoopF fuel ents pr pfx (items.drop ents)
              (buildEntries (items.take ents) pr tally).2 (k + 1)).1,
          (sitemapLoopF fuel ents pr pfx (items.drop ents)
            (buildEntries (items.take ents) pr tally).2 (k + 1)).2) := rfl

theorem loopF_nil (fuel ents : Nat) (pr pfx : String) (tally : Tally) (k : Nat) :
    sitemapLoopF fuel ents pr pfx [] tally k = ([], tally) := by
  cases fuel with
  | zero => rfl
  | succ n => simp [loopF_succ, List.take_nil, buildEntries]

theorem buildEntries_entries (b : List (Elem × String)) (pr : String) (t : Tally) :
    (buildEntries b pr t).1 =
      (b.filter (fun p => textTruthy p.1.text)).map
        (fun p => (⟨p.1.text.getD "", pr⟩ : AddressEntry)) := by
  induction b generalizing t with
  | nil => rfl
  | cons hd tl ih =>
    obtain ⟨e, tag⟩ := hd
    by_cases h : textTruthy e.text = true
    · simp [buildEntries, h, List.filter_cons, ih]
    · simp [buildEntries, h, List.filter_cons, ih]

theorem buildEntries_all_falsy (b : List (Elem × String)) (pr : String) (t : Tally)
    (h : ∀ p ∈ b, textTruthy p.1.text = false) :
    buildEntries b pr t = ([], t) := by
  induction b with
  | nil => rfl
  | cons hd tl ih =>
    obtain ⟨e, tag⟩ := hd
    have hhd : textTruthy e.text = false := h (e, tag) (List.mem_cons_self _ _)
    simp only [buildEntries, hhd, Bool.false_eq_true, if_false]
    exact ih (fun p hp => h p (List.mem_cons_of_mem _ hp))

theorem buildEntries_skip (pre post : List (Elem × String)) (e : Elem) (tag : String)
    (pr : String) (t : Tally) (hfalsy : textTruthy e.text = false) :
    buildEntries (pre ++ (e, tag) :: post) pr t = buildEntries (pre ++ post) pr t := by
  induction pre generalizing t with
  | nil => simp [buildEntries, hfalsy]
  | cons hd tl ih =>
    obtain ⟨he, htag⟩ := hd
    by_cases h : textTruthy he.text = true
    · simp [buildEntries, h, ih]
    · simp [buildEntries, h, ih]

theorem truthyTexts_append (a b : List (Elem × String)) :
    truthyTexts (a ++ b) = truthyTexts a ++ truthyTexts b := by
  simp [truthyTexts, List.filter_append]

theorem outLocs_nil : outLocs [] = [] := rfl

theorem outLocs_cons (f : String × List AddressEntry) (fs : List (String × List AddressEntry)) :
    outLocs (f :: fs) = docLocs f.2 ++ outLocs fs := rfl

theorem loopF_no_empty (ents : Nat) (pr pfx : String) :
    ∀ (fuel : Nat) (items : List (Elem × String)) (tally : Tally) (k : Nat),
      ∀ f ∈ (sitemapLoopF fuel ents pr pfx items tally k).1, f.2 ≠ [] := by
  intro fuel
  induction fuel with
  | zero => intro items tally k f hf; simp [loopF_zero] at hf
  | succ n ih =>
    intro items tally k f hf
    rw [loopF_succ] at hf
    by_cases hd : (buildEntries (items.take ents) pr tally).1 = []
    · rw [if_pos hd] at hf
      simp at hf
    · rw [if_neg hd] at hf
      rcases List.mem_cons.mp hf with heq | hmem
      · rw [heq]
        exact hd
      · exact ih _ _ _ f hmem

theorem loopF_le (ents : Nat) (pr pfx : String) :
    ∀ (fuel : Nat) (items : List (Elem × String)) (tally : Tally) (k : Nat),
      ∀ f ∈ (sitemapLoopF fuel ents pr pfx items tally k).1, f.2.length ≤ ents := by
  intro fuel
  induction fuel with
  | zero => intro items tally k f hf; simp [loopF_zero] at hf
  | succ n ih =>
    intro items tally k f hf
    rw [loopF_succ] at hf
    by_cases hd : (buildEntries (items.take ents) pr tally).1 = []
    · rw [if_pos hd] at hf
      simp at hf
    · rw [if_neg hd] at hf
      rcases List.mem_cons.mp hf with heq | hmem
      · rw [heq]
        show (buildEntries (items.take ents) pr tally).1.length ≤ ents
        rw [buildEntries_entries, List.length_map]
        calc ((items.take ents).filter (fun p => textTruthy p.1.text)).length
            ≤ (items.take ents).length := List.length_filter_le _ _
          _ ≤ ents := by rw [List.length_take]; exact Nat.min_le_left _ _
      · exact ih _ _ _ f hmem

theorem loopF_names (ents : Nat) (pr pfx : String) :
    ∀ (fuel : Nat) (items : List (Elem × String)) (tally : Tally) (k : Nat),
      (sitemapLoopF fuel ents pr pfx items tally k).1.map Prod.fst =
        (List.range (sitemapLoopF fuel ents pr pfx items tally k).1.length).map
          (fun i => fileName pfx (k + i)) := by
  intro fuel
  induction fuel with
  | zero => intro items tally k; simp [loopF_zero]
  | succ n ih =>
    intro items tally k
    rw [loopF_succ]
    by_cases hd : (buildEntries (items.take ents) pr tally).1 = []
    · rw [if_pos hd]
      simp
    · rw [if_neg hd]
      simp only [List.map_cons, List.length_cons, List.range_succ_eq_map, List.map_map]
      congr 1
      rw [ih]
      apply List.map_congr_left
      intro a _
      show fileName pfx (k + 1 + a) = fileName pfx (k + (a + 1))
      congr 1
      omega

theorem loopF_all_full (ents : Nat) (pr pfx : String) :
    ∀ (fuel : Nat) (items : List (Elem × String)) (tally : Tally) (k : Nat),
      (∀ p ∈ items, textTruthy p.1.text = true) →
      AllFullButLast (sitemapLoopF fuel ents pr pfx items tally k).1 ents := by
  intro fuel
  induction fuel with
  | zero => intro items tally k _ i hi; simp [loopF_zero] at hi
  | succ n ih =>
    intro items tally k ht
    rw [loopF_succ]
    by_cases hd : (buildEntries (items.take ents) pr tally).1 = []
    · rw [if_pos hd]
      intro i hi
      simp at hi
    · rw [if_neg hd]
      intro i hi
      cases i with
      | zero =>
        have hrest : (sitemapLoopF n ents pr pfx (items.drop ents)
            (buildEntries (items.take ents) pr tally).2 (k + 1)).1 ≠ [] := by
          intro hnil
          rw [List.length_cons, hnil] at hi
          simp at hi
        have hlen : ents ≤ items.length := by
          by_contra hlt
          push_neg at hlt
          have hdrop : items.drop ents = [] :=
            List.drop_eq_nil_of_le (Nat.le_of_lt hlt)
          rw [hdrop, loopF_nil] at hrest
          exact hrest rfl
        show (buildEntries (items.take ents) pr tally).1.length = ents
        rw [buildEntries_entries]
        rw [List.filter_eq_self.mpr (fun p hp => ht p (List.mem_of_mem_take hp))]
        rw [List.length_map, List.length_take]
        exact Nat.min_eq_left hlen
      | succ j =>
        have hj : j + 1 < (sitemapLoopF n ents pr pfx (items.drop ents)
            (buildEntries (items.take ents) pr tally).2 (k + 1)).1.length := by
          rw [List.length_cons] at hi
          omega
        exact ih (items.drop ents) _ (k + 1)
          (fun p hp => ht p (List.mem_of_mem_drop hp)) j hj

theorem loopF_outLocs :
    ∀ (fuel ents : Nat) (pr pfx : String) (items : List (Elem × String)) (tally : Tally)
      (k fp : Nat),
      items.length + 1 ≤ fuel → items.length ≤ fp →
      noAllFilteredF fp ents items = true →
      outLocs (sitemapLoopF fuel ents pr pfx items tally k).1 = truthyTexts items := by
  intro fuel
  induction fuel with
  | zero =>
    intro ents pr pfx items tally k fp h1 h2 h3
    exact absurd h1 (Nat.not_succ_le_zero _)
  | succ n ih =>
    intro ents pr pfx items tally k fp h1 h2 h3
    rw [loopF_succ]
    by_cases hd : (buildEntries (items.take ents) pr tally).1 = []
    · rw [if_pos hd]
      cases items with
      | nil => simp [outLocs, truthyTexts]
      | cons x xs =>
        cases fp with
        | zero => simp at h2
        | succ g =>
          simp only [noAllFilteredF, Bool.and_eq_true] at h3
          obtain ⟨hany, -⟩ := h3
          rw [buildEntries_entries] at hd
          have hfil : ((x :: xs).take ents).filter (fun p => textTruthy p.1.text) = [] :=
            List.map_eq_nil_iff.mp hd
          obtain ⟨p, hp, hpt⟩ := List.any_eq_true.mp hany
          exact absurd hpt (List.filter_eq_nil_iff.mp hfil p hp)
    · rw [if_neg hd]
      have hbne : items.take ents ≠ [] := by
        intro hnil
        rw [hnil] at hd
        exact hd rfl
      have hents : 1 ≤ ents := by
        cases ents with
        | zero => exact absurd rfl hbne
        | succ m => exact Nat.succ_le_succ (Nat.zero_le m)
      have hine : items ≠ [] := by
        intro hnil
        rw [hnil, List.take_nil] at hbne
        exact hbne rfl
      rw [outLocs_cons]
      have hdoc : docLocs (buildEntries (items.take ents) pr tally).1 =
          truthyTexts (items.take ents) := by
        rw [buildEntries_entries]
        simp [docLocs, truthyTexts, List.map_map]
      cases items with
      | nil => exact absurd rfl hine
      | cons x xs =>
        cases fp with
        | zero => simp at h2
        | succ g =>
          simp only [noAllFilteredF, Bool.and_eq_true] at h3
          obtain ⟨-, hrest⟩ := h3
          have hlen1 : ((x :: xs).drop ents).length + 1 ≤ n := by
            rw [List.length_drop]
            simp only [List.length_cons] at h1 ⊢
            omega
          have hlen2 : ((x :: xs).drop ents).length ≤ g := by
            rw [List.length_drop]
            simp only [List.length_cons] at h2 ⊢
            omega
          rw [hdoc, ih ents pr pfx ((x :: xs).drop ents) _ (k + 1) g hlen1 hlen2 hrest]
          rw [← truthyTexts_append, List.take_append_drop]

theorem resolveSelectors_mem (src : Source) :
    ∀ (xs : List String) (items : List (Elem × String)),
      resolveSelectors src xs = Except.ok items →
      ∀ p ∈ items, p.2 ∈ xs ∧ ∃ es, src.query p.2 = Except.ok es ∧ p.1 ∈ es := by
  intro xs
  induction xs with
  | nil =>
    intro items h p hp
    simp only [resolveSelectors, Except.ok.injEq] at h
    rw [← h] at hp
    simp at hp
  | cons x xs ih =>
    intro items h p hp
    cases hqx : src.query x with
    | error u => simp [resolveSelectors, hqx] at h
    | ok es =>
      cases hrs : resolveSelectors src xs with
      | error e => simp [resolveSelectors, hqx, hrs] at h
      | ok rest =>
        simp only [resolveSelectors, hqx, hrs, Except.ok.injEq] at h
        rw [← h] at hp
        rcases List.mem_append.mp hp with hl | hr
        · obtain ⟨e, he, hep⟩ := List.mem_map.mp hl
          rw [← hep]
          exact ⟨List.mem_cons_self x xs, es, hqx, he⟩
        · obtain ⟨hx, es2, hq2, he2⟩ := ih rest hrs p hr
          exact ⟨List.mem_cons_of_mem _ hx, es2, hq2, he2⟩

theorem resolveSelectors_err (src : Source) :
    ∀ xs : List String,
      (∃ x ∈ xs, src.query x = Except.error ()) →
      ∃ e, e ∈ xs ∧ src.query e = Except.error () ∧
        resolveSelectors src xs = Except.error e := by
  intro xs
  induction xs with
  | nil => intro h; simp at h
  | cons x xs ih =>
    intro h
    cases hqx : src.query x with
    | error u =>
      refine ⟨x, List.mem_cons_self x xs, ?_, ?_⟩
      · exact hqx
      · simp [resolveSelectors, hqx]
    | ok es =>
      obtain ⟨y, hy, hqy⟩ := h
      have hyxs : y ∈ xs := by
        rcases List.mem_cons.mp hy with heq | h2
        · rw [heq, hqx] at hqy
          exact absurd hqy (by simp)
        · exact h2
      obtain ⟨e, he, hqe, hre⟩ := ih ⟨y, hyxs, hqy⟩
      refine ⟨e, List.mem_cons_of_mem _ he, hqe, ?_⟩
      simp [resolveSelectors, hqx, hre]

theorem get_element_iterators_ok (src : Source) (xpaths : List String)
    (items : List (Elem × String)) (t0 : Tally)
    (h : get_element_iterators src xpaths = Except.ok (items, t0)) :
    resolveSelectors src xpaths = Except.ok items ∧ t0 = Tally.init xpaths := by
  unfold get_element_iterators at h
  cases hrs : resolveSelectors src xpaths with
  | error e => rw [hrs] at h; simp at h
  | ok its =>
    rw [hrs] at h
    simp only [Except.ok.injEq, Prod.mk.injEq] at h
    exact ⟨by rw [h.1], h.2.symm⟩

theorem handle_ok_inv (src : Source) (cfg : Config) (r : RunResult)
    (h : handle src cfg = Except.ok r) :
    ∃ items t0,
      get_element_iterators src cfg.selectors = Except.ok (items, t0) ∧
      r.files = (sitemapLoop cfg.entries_number cfg.urls_priority cfg.pfx items t0).1 ∧
      r.tally = (sitemapLoop cfg.entries_number cfg.urls_priority cfg.pfx items t0).2 ∧
      r.indexLocs =
        (if 1 < (sitemapLoop cfg.entries_number cfg.urls_priority cfg.pfx items t0).1.length then
          some ((sitemapLoop cfg.entries_number cfg.urls_priority cfg.pfx items t0).1.map
            (fun f => cfg.output_dir ++ "/" ++ f.1))
        else
          none) := by
  unfold handle at h
  cases hq : get_element_iterators src cfg.selectors with
  | error e => rw [hq] at h; simp at h
  | ok p =>
    obtain ⟨items, t0⟩ := p
    rw [hq] at h
    simp only [Except.ok.injEq] at h
    exact ⟨items, t0, rfl, by rw [← h], by rw [← h], by rw [← h]⟩

theorem merged_truthy (src : Source) (xpaths : List String) (items : List (Elem × String))
    (hres : resolveSelectors src xpaths = Except.ok items)
    (ht : ∀ x ∈ xpaths, ∀ es, src.query x = Except.ok es →
      ∀ e ∈ es, textTruthy e.text = true) :
    ∀ p ∈ items, textTruthy p.1.text = true := by
  intro p hp
  obtain ⟨hx, es, hq, he⟩ := resolveSelectors_mem src xpaths items hres p hp
  exact ht p.2 hx es hq p.1 he

theorem runFs_gz (files : List (String × List AddressEntry)) (p b : String)
    (hx : FsFile.xml p b ∈ runFs true files) :
    FsFile.gz (p ++ ".gz") b ∈ runFs true files := by
  induction files with
  | nil => simp [runFs] at hx
  | cons f fs ih =>
    simp only [runFs, List.flatMap_cons] at hx ⊢
    rcases List.mem_append.mp hx with h1 | h2
    · simp only [write_fs, if_pos rfl, List.mem_cons] at h1
      rcases h1 with heq | h1
      · obtain ⟨hp, hb⟩ : p = f.1 ∧ b = serialize_sitemap f.2 := by
          injection heq with hp hb
          exact ⟨hp, hb⟩
        apply List.mem_append.mpr
        left
        rw [hp, hb]
        simp [write_fs]
      · simp at h1
    · exact List.mem_append.mpr (Or.inr (ih h2))

/-! ## Claim theorems -/

/-- C1, counterexample: on the round-trip scenario (selector `//offer/url`
matching texts `https://a/1`, empty, `https://a/2`, with two entries per
file) the script writes TWO sitemap files and an index file, not the single
file without index that the claim predicts: the empty item consumes a slot
of the first pull, so the first file holds one entry and a second file is
needed. -/
theorem roundtrip_scenario_two_files_and_index :
    (handle srcRT cfgRT).map (fun r => (r.files.length, r.indexLocs.isSome)) =
      Except.ok (2, true) := rfl

/-- C1, amended: on the round-trip scenario the run produces two files,
`sitemap.xml` holding the single entry `https://a/1` (the empty item
dropped from the same pull) and `sitemap1.xml` holding the single entry
`https://a/2`, writes `sitemap-index.xml` listing both, and the final tally
maps `//offer/url` to 2. -/
theorem roundtrip_scenario_result : handle srcRT cfgRT = Except.ok rRT := rfl

/-- C2, counterexample: a pulled item whose text is whitespace-only
(a single blank) is truthy in Python, so the batch builder DOES create an
AddressEntry for it and DOES bump the tally of its selector, contradicting
the claim that whitespace-only text is dropped. -/
theorem whitespace_text_creates_entry :
    make_sitemap_tree [(⟨some " "⟩, "//offer/url")] 5 "0.3" (Tally.init ["//offer/url"]) =
      (([⟨" ", "0.3"⟩], [("//offer/url", 1)]), []) := rfl

/-- C2, amended: for every pulled item whose text is empty or absent, the
batch builder creates no AddressEntry and does not touch that selector
tally (the document and tally are the same as if the item were not in the
batch), raises no error, and the item still consumes one slot of the
maxCount pull: the remaining sequence is advanced by the full pull size
regardless of drops. Whitespace-only text, however, is kept, see the
counterexample. -/
theorem drop_rule_empty_or_absent (items pre post : List (Elem × String)) (e : Elem)
    (tag : String) (ents : Nat) (pr : String) (tally : Tally)
    (hsplit : items.take ents = pre ++ (e, tag) :: post)
    (hfalsy : textTruthy e.text = false) :
    (make_sitemap_tree items ents pr tally).1 = buildEntries (pre ++ post) pr tally ∧
    (make_sitemap_tree items ents pr tally).2 = items.drop ents := by
  constructor
  · show buildEntries (items.take ents) pr tally = _
    rw [hsplit]
    exact buildEntries_skip pre post e tag pr tally hfalsy
  · rfl

/-- Witness for C2 at a concrete batch: a pull of three items whose middle
item has absent text yields the document and tally of the two outer items
and consumes all three slots. -/
theorem drop_rule_empty_or_absent_witness :
    ([(elemOf "https://w/1", "t"), (Elem.mk none, "t"), (elemOf "https://w/2", "t")].take 3 =
      [(elemOf "https://w/1", "t")] ++ (Elem.mk none, "t") :: [(elemOf "https://w/2", "t")]) ∧
    textTruthy (Elem.mk none).text = false ∧
    ((make_sitemap_tree [(elemOf "https://w/1", "t"), (Elem.mk none, "t"),
          (elemOf "https://w/2", "t")] 3 "0.3" (Tally.init ["t"])).1 =
        buildEntries ([(elemOf "https://w/1", "t")] ++ [(elemOf "https://w/2", "t")]) "0.3"
          (Tally.init ["t"]) ∧
      (make_sitemap_tree [(elemOf "https://w/1", "t"), (Elem.mk none, "t"),
          (elemOf "https://w/2", "t")] 3 "0.3" (Tally.init ["t"])).2 =
        [(elemOf "https://w/1", "t"), (Elem.mk none, "t"),
          (elemOf "https://w/2", "t")].drop 3) :=
  ⟨rfl, rfl,
    drop_rule_empty_or_absent
      [(elemOf "https://w/1", "t"), (Elem.mk none, "t"), (elemOf "https://w/2", "t")]
      [(elemOf "https://w/1", "t")] [(elemOf "https://w/2", "t")]
      (Elem.mk none) "t" 3 "0.3" (Tally.init ["t"]) rfl rfl⟩

/-- C3: for every successful run, the index file is present iff at least
two sitemap files were written, and when present it lists exactly one
`loc` per written file, namely its output path, in write order. -/
theorem index_presence_law (src : Source) (cfg : Config) (r : RunResult)
    (h : handle src cfg = Except.ok r) :
    (r.indexLocs.isSome = true ↔ 2 ≤ r.files.length) ∧
    (∀ ls, r.indexLocs = some ls →
      ls = r.files.map (fun f => cfg.output_dir ++ "/" ++ f.1)) := by
  obtain ⟨items, t0, hq, hf, hty, hidx⟩ := handle_ok_inv src cfg r h
  constructor
  · rw [hidx, hf]
    by_cases hlen :
      1 < (sitemapLoop cfg.entries_number cfg.urls_priority cfg.pfx items t0).1.length
    · rw [if_pos hlen]
      constructor
      · intro _
        exact hlen
      · intro _
        rfl
    · rw [if_neg hlen]
      simp only [Option.isSome_none]
      constructor
      · intro hfalse
        exact absurd hfalse (by simp)
      · intro h2
        exact absurd h2 (by omega)
  · intro ls hls
    rw [hidx] at hls
    by_cases hlen :
      1 < (sitemapLoop cfg.entries_number cfg.urls_priority cfg.pfx items t0).1.length
    · rw [if_pos hlen] at hls
      rw [hf]
      exact (Option.some.inj hls).symm
    · rw [if_neg hlen] at hls
      exact absurd hls (by simp)

/-- Witness for C3 at the multi-file scenario: three files written, the
index present and listing the three output paths. -/
theorem index_presence_law_witness :
    (handle srcM cfgM = Except.ok rM) ∧
    ((rM.indexLocs.isSome = true ↔ 2 ≤ rM.files.length) ∧
      (∀ ls, rM.indexLocs = some ls →
        ls = rM.files.map (fun f => cfgM.output_dir ++ "/" ++ f.1))) :=
  ⟨rfl, index_presence_law srcM cfgM rM rfl⟩

/-- C4: for every successful run, every written sitemap file holds at least
one url entry: the loop checks the freshly built document for emptiness and
breaks before writing. -/
theorem no_empty_files (src : Source) (cfg : Config) (r : RunResult)
    (h : handle src cfg = Except.ok r) :
    ∀ f ∈ r.files, f.2 ≠ [] := by
  obtain ⟨items, t0, hq, hf, -, -⟩ := handle_ok_inv src cfg r h
  rw [hf]
  exact loopF_no_empty cfg.entries_number cfg.urls_priority cfg.pfx
    (items.length + 1) items t0 0

/-- Witness for C4 at the round-trip scenario. -/
theorem no_empty_files_witness :
    (handle srcRT cfgRT = Except.ok rRT) ∧ (∀ f ∈ rRT.files, f.2 ≠ []) :=
  ⟨rfl, no_empty_files srcRT cfgRT rRT rfl⟩

/-- C5: for every successful run, every written document holds at most
`entries_number` entries; and when every matched element has truthy text,
every written document except possibly the last holds exactly
`entries_number` entries. -/
theorem partition_bound (src : Source) (cfg : Config) (r : RunResult)
    (h : handle src cfg = Except.ok r) :
    (∀ f ∈ r.files, f.2.length ≤ cfg.entries_number) ∧
    ((∀ x ∈ cfg.selectors, ∀ es, src.query x = Except.ok es →
        ∀ e ∈ es, textTruthy e.text = true) →
      ∀ (i : Nat) (hi : i + 1 < r.files.length),
        (r.files.get ⟨i, Nat.lt_of_succ_lt hi⟩).2.length = cfg.entries_number) := by
  obtain ⟨items, t0, hq, hf, -, -⟩ := handle_ok_inv src cfg r h
  obtain ⟨hres, -⟩ := get_element_iterators_ok src cfg.selectors items t0 hq
  rw [hf]
  constructor
  · exact loopF_le cfg.entries_number cfg.urls_priority cfg.pfx
      (items.length + 1) items t0 0
  · intro ht
    exact loopF_all_full cfg.entries_number cfg.urls_priority cfg.pfx
      (items.length + 1) items t0 0 (merged_truthy src cfg.selectors items hres ht)

/-- Witness for C5 at the multi-file scenario: file sizes 2, 2, 1 with the
cap at 2. -/
theorem partition_bound_witness :
    (handle srcM cfgM = Except.ok rM) ∧
    ((∀ f ∈ rM.files, f.2.length ≤ cfgM.entries_number) ∧
      ((∀ x ∈ cfgM.selectors, ∀ es, srcM.query x = Except.ok es →
          ∀ e ∈ es, textTruthy e.text = true) →
        ∀ (i : Nat) (hi : i + 1 < rM.files.length),
          (rM.files.get ⟨i, Nat.lt_of_succ_lt hi⟩).2.length = cfgM.entries_number)) :=
  ⟨rfl, partition_bound srcM cfgM rM rfl⟩

/-- C6, counterexample: with one entry per file and the merged sequence
holding an empty-text item followed by a matching non-empty-text item, the
first pulled batch is entirely filtered out, the loop stops, and the
concatenated output misses `https://x/1` although it was matched with
non-empty text, so order preservation as claimed fails. -/
theorem early_stop_loses_items :
    resolveSelectors srcES cfgES.selectors = Except.ok esItems ∧
    truthyTexts esItems = ["https://x/1"] ∧
    (handle srcES cfgES).map (fun r => outLocs r.files) = Except.ok [] ∧
    (Except.ok [] : Except String (List String)) ≠ Except.ok ["https://x/1"] := by
  refine ⟨rfl, rfl, rfl, ?_⟩
  intro hcontra
  simp at hcontra

/-- C6, amended: provided no pulled batch consists entirely of
empty-or-absent-text items, concatenating the url entries of the written
files in file-index order reproduces exactly the sequence of truthy-text
items of the merged extraction sequence, in order, none missing and none
duplicated. -/
theorem order_preservation_no_all_filtered (src : Source) (cfg : Config) (r : RunResult)
    (items : List (Elem × String))
    (h : handle src cfg = Except.ok r)
    (hm : resolveSelectors src cfg.selectors = Except.ok items)
    (hno : noAllFiltered cfg.entries_number items = true) :
    outLocs r.files = truthyTexts items := by
  obtain ⟨items2, t0, hq, hf, -, -⟩ := handle_ok_inv src cfg r h
  obtain ⟨hres, -⟩ := get_element_iterators_ok src cfg.selectors items2 t0 hq
  rw [hm] at hres
  have hiq : items = items2 := Except.ok.inj hres
  rw [hf, ← hiq]
  exact loopF_outLocs (items.length + 1) cfg.entries_number cfg.urls_priority cfg.pfx
    items t0 0 items.length (Nat.le_refl _) (Nat.le_refl _) hno

/-- Witness for C6 at the multi-file scenario: the five addresses come back
out in extraction order across the three files. -/
theorem order_preservation_witness :
    (handle srcM cfgM = Except.ok rM) ∧
    (resolveSelectors srcM cfgM.selectors = Except.ok mItems) ∧
    (noAllFiltered cfgM.entries_number mItems = true) ∧
    outLocs rM.files = truthyTexts mItems :=
  ⟨rfl, rfl, rfl, order_preservation_no_all_filtered srcM cfgM rM mItems rfl rfl rfl⟩

/-- C7: for every successful run, the names of the written files are, in
write order, exactly `fileName pfx 0, fileName pfx 1, ...`, that is
`pfx.xml, pfx1.xml, pfx2.xml, ...` with no gaps. -/
theorem filename_scheme (src : Source) (cfg : Config) (r : RunResult)
    (h : handle src cfg = Except.ok r) :
    r.files.map Prod.fst =
      (List.range r.files.length).map (fun n => fileName cfg.pfx n) := by
  obtain ⟨items, t0, hq, hf, -, -⟩ := handle_ok_inv src cfg r h
  rw [hf]
  have hnames := loopF_names cfg.entries_number cfg.urls_priority cfg.pfx
    (items.length + 1) items t0 0
  simpa using hnames

/-- Witness for C7 at the multi-file scenario: names `sitemap.xml`,
`sitemap1.xml`, `sitemap2.xml`. -/
theorem filename_scheme_witness :
    (handle srcM cfgM = Except.ok rM) ∧
    rM.files.map Prod.fst =
      (List.range rM.files.length).map (fun n => fileName cfgM.pfx n) :=
  ⟨rfl, filename_scheme srcM cfgM rM rfl⟩

/-- C8: for every successful run with gzip requested, every written
`.xml` sitemap file has a `.xml.gz` sibling whose payload is exactly the
bytes serialized into the `.xml` file: the writer serializes once and
copies those bytes into the gzip container. -/
theorem gzip_byte_correspondence (src : Source) (cfg : Config) (r : RunResult)
    (h : handle src cfg = Except.ok r) (hz : cfg.need_zip = true) (p b : String)
    (hx : FsFile.xml p b ∈ runFs cfg.need_zip r.files) :
    FsFile.gz (p ++ ".gz") b ∈ runFs cfg.need_zip r.files := by
  rw [hz] at hx ⊢
  exact runFs_gz r.files p b hx

/-- Witness for C8 at the multi-file scenario with gzip on: the first file
has its gzip sibling with the identical payload. -/
theorem gzip_byte_correspondence_witness :
    (handle srcM cfgM = Except.ok rM) ∧ (cfgM.need_zip = true) ∧
    (FsFile.xml "sitemap.xml"
        (serialize_sitemap [⟨"https://m/1", "0.5"⟩, ⟨"https://m/2", "0.5"⟩]) ∈
      runFs cfgM.need_zip rM.files) ∧
    (FsFile.gz ("sitemap.xml" ++ ".gz")
        (serialize_sitemap [⟨"https://m/1", "0.5"⟩, ⟨"https://m/2", "0.5"⟩]) ∈
      runFs cfgM.need_zip rM.files) :=
  ⟨rfl, rfl, List.mem_cons_self _ _,
    gzip_byte_correspondence srcM cfgM rM rfl rfl "sitemap.xml"
      (serialize_sitemap [⟨"https://m/1", "0.5"⟩, ⟨"https://m/2", "0.5"⟩])
      (List.mem_cons_self _ _)⟩

/-- C9: for every run with at least one syntactically invalid selector
expression, the run aborts with an error naming an invalid expression and
produces no result at all, so no sitemap or index file is written: selector
resolution happens before the write loop. -/
theorem selector_failfast (src : Source) (cfg : Config)
    (h : ∃ x ∈ cfg.selectors, src.query x = Except.error ()) :
    ∃ e, e ∈ cfg.selectors ∧ src.query e = Except.error () ∧
      handle src cfg = Except.error e := by
  obtain ⟨e, he, hqe, hre⟩ := resolveSelectors_err src cfg.selectors h
  exact ⟨e, he, hqe, by simp [handle, get_element_iterators, hre]⟩

/-- Witness for C9: a configuration with the invalid expression `[` aborts
naming it. -/
theorem selector_failfast_witness :
    (∃ x ∈ cfgBad.selectors, srcBad.query x = Except.error ()) ∧
    (∃ e, e ∈ cfgBad.selectors ∧ srcBad.query e = Except.error () ∧
      handle srcBad cfgBad = Except.error e) :=
  ⟨⟨"[", by simp [cfgBad], rfl⟩,
    selector_failfast srcBad cfgBad ⟨"[", by simp [cfgBad], rfl⟩⟩

/-- C10: whenever the next batch of up to `ents` pulled items consists
entirely of falsy-text items, the driving loop stops at once: it writes no
further file and leaves the tally untouched, even when items, including
matching non-empty-text ones, remain beyond the pulled batch. -/
theorem all_filtered_batch_stops_loop (fuel ents k : Nat) (pr pfx : String)
    (items : List (Elem × String)) (tally : Tally)
    (h : ∀ p ∈ items.take ents, textTruthy p.1.text = false) :
    sitemapLoopF (fuel + 1) ents pr pfx items tally k = ([], tally) := by
  rw [loopF_succ, buildEntries_all_falsy (items.take ents) pr tally h]
  simp

/-- Witness for C10: the loop state whose next one-item batch holds only an
empty-text item stops with no files and an untouched tally although the
non-empty-text item `https://x/1` is still pending. -/
theorem all_filtered_batch_stops_loop_witness :
    (∀ p ∈ ([(elemOf "", "t"), (elemOf "https://x/1", "t")].take 1),
      textTruthy p.1.text = false) ∧
    sitemapLoopF 1 1 "0.3" "sitemap" [(elemOf "", "t"), (elemOf "https://x/1", "t")]
      (Tally.init ["t"]) 0 = ([], Tally.init ["t"]) :=
  ⟨by decide,
    all_filtered_batch_stops_loop 0 1 0 "0.3" "sitemap"
      [(elemOf "", "t"), (elemOf "https://x/1", "t")] (Tally.init ["t"]) (by decide)⟩

end SitemapGen
